import Mathlib

set_option linter.unusedVariables false

/-!
Verification development for the itinerary-planner agent repository.

The Python sources under `src/` are shallowly embedded as executable Lean
definitions: pydantic models become structures, dates become natural
numbers in `yyyymmdd` form (calendar order coincides with numeric order),
Python functions that may raise become `Except`-valued functions, and the
external collaborators (the OpenAI chat completion, the `json_repair` /
`json.loads` libraries, the pydantic validator for `TravelPlan`, and the
tool bodies) are parameters of an `Env` structure, exactly as the spec
treats them (opaque blocking functions).  The mocked data tables
(`ACTIVITY_CALENDAR`, `WEATHER_FORECAST` from `utils.data`, a module that
is not part of the sources) are passed as explicit list parameters.
-/

/-- Interest tags. Modelled from the spec: `utils.data.Interest` (an enum of
interest tags) is not among the source files; the spec only calls them a
"set-of-interest-tags", so a tag is modelled as a string. -/
abbrev Interest := String

/-- Embedding of `model.Traveler` (pydantic model): name, age, interests. -/
structure Traveler where
  name : String
  age : Int
  interests : List Interest
  deriving Repr, DecidableEq

/-- Dates are embedded as naturals in `yyyymmdd` form; for genuine calendar
dates this encoding is strictly monotone, so `datetime.date` comparisons
in the source become `Nat` comparisons. -/
abbrev PyDate := Nat

/-- Embedding of `model.VacationInfo` (pydantic model): travelers,
destination, arrival and departure dates, budget. -/
structure VacationInfo where
  travelers : List Traveler
  destination : String
  date_of_arrival : PyDate
  date_of_departure : PyDate
  budget : Int
  deriving Repr, DecidableEq

/-- Embedding of the pydantic validation performed when a `VacationInfo`
is constructed (`model.py` lines 37-50): the declared field constraints are
`min_items=1` on `travelers`, `gt=date(2025,6,9)` on `date_of_arrival`,
`lt=date(2025,6,16)` on `date_of_departure` and `gt=0` on `budget`.
Validation succeeds exactly when every declared constraint holds; no
constraint relates the two dates to each other. -/
def VacationInfo.validate (travelers : List Traveler) (destination : String)
    (arrival departure : PyDate) (budget : Int) : Option VacationInfo :=
  if 1 ≤ travelers.length ∧ 20250609 < arrival ∧ departure < 20250616 ∧ 0 < budget then
    some ⟨travelers, destination, arrival, departure, budget⟩
  else
    none

/-- Embedding of `model.Weather`. The `temperature: float` field is kept
as an integer number of degrees; no claim inspects it. -/
structure Weather where
  temperature : Int
  temperature_unit : String
  condition : String
  deriving Repr, DecidableEq

/-- Embedding of `model.Activity`. Timestamps are embedded like dates. -/
structure Activity where
  activity_id : String
  name : String
  start_time : Nat
  end_time : Nat
  location : String
  description : String
  price : Int
  related_interests : List Interest
  deriving Repr, DecidableEq

/-- Embedding of `model.ActivityRecommendation`. -/
structure ActivityRecommendation where
  activity : Activity
  reasons_for_recommendation : List String
  deriving Repr, DecidableEq

/-- Embedding of `model.ItineraryDay`. -/
structure ItineraryDay where
  date : PyDate
  weather : Weather
  activity_recommendations : List ActivityRecommendation
  deriving Repr, DecidableEq

/-- Embedding of `model.TravelPlan`. -/
structure TravelPlan where
  city : String
  start_date : PyDate
  end_date : PyDate
  total_cost : Int
  itinerary_days : List ItineraryDay
  deriving Repr, DecidableEq

/-- Embedding of `evals.EvaluationResults` (pydantic model). -/
structure EvaluationResults where
  success : Bool
  failures : List String
  eval_functions : List String
  deriving Repr, DecidableEq

/-- Outcome of running one evaluator body: it returns silently, raises
`AgentError` (the validation-failure signal caught by the suite runner), or
raises some other exception (e.g. the `RuntimeError` the two LLM-judge
evaluators raise on an unparseable judgment), which the runner does not
catch. -/
inductive EvalOutcome where
  | ok : EvalOutcome
  | agentError (msg : String) : EvalOutcome
  | fatal (msg : String) : EvalOutcome
  deriving Repr, DecidableEq

/-- An evaluator as the suite runner sees it: a `__name__` and a body
applied to `(vacation_info, final_output, traveler_feedback)`. -/
structure Evaluator where
  name : String
  run : VacationInfo → TravelPlan → Option String → EvalOutcome

/-- Accumulating loop of `evals.get_eval_results` (lines 38-47): each
evaluator is invoked in order; an `AgentError` is appended to the failure
list and the loop moves on; any other exception propagates. -/
def runEvalFns (vi : VacationInfo) (fo : TravelPlan) (fb : Option String) :
    List Evaluator → List String → Except String (List String)
  | [], acc => Except.ok acc
  | f :: rest, acc =>
    match f.run vi fo fb with
    | EvalOutcome.ok => runEvalFns vi fo fb rest acc
    | EvalOutcome.agentError m => runEvalFns vi fo fb rest (acc ++ [m])
    | EvalOutcome.fatal m => Except.error m

/-- Embedding of `evals.get_eval_results` (lines 18-53).  The leading
`isinstance` checks are made unrepresentable by the embedding's types.
`success` is `len(eval_results) == 0`; `eval_functions` lists every
configured evaluator's `__name__` in order. -/
def get_eval_results (vi : VacationInfo) (fo : TravelPlan)
    (eval_fns : List Evaluator) (fb : Option String) :
    Except String EvaluationResults :=
  match runEvalFns vi fo fb eval_fns [] with
  | Except.error m => Except.error m
  | Except.ok failures =>
    Except.ok ⟨failures.length == 0, failures, eval_fns.map (fun f => f.name)⟩

/-- Failure message an evaluator contributes, if any. -/
def evalFailureMsg (vi : VacationInfo) (fo : TravelPlan) (fb : Option String)
    (f : Evaluator) : Option String :=
  match f.run vi fo fb with
  | EvalOutcome.agentError m => some m
  | _ => none

/-- Embedding of `evals.eval_start_end_dates_match` (lines 56-79): raises
`AgentError` when the vacation arrival/departure differ from the plan
start/end, then when the start date is after the end date; otherwise
returns silently. -/
def eval_start_end_dates_match (vi : VacationInfo) (fo : TravelPlan)
    (fb : Option String) : Except String Unit :=
  if vi.date_of_arrival ≠ fo.start_date ∨ vi.date_of_departure ≠ fo.end_date then
    Except.error ("Dates do not match: " ++ toString vi.date_of_arrival ++ " != "
      ++ toString fo.start_date ++ " or " ++ toString vi.date_of_departure ++ " != "
      ++ toString fo.end_date)
  else if fo.end_date < fo.start_date then
    Except.error ("Start date is after end date: " ++ toString fo.start_date ++ " > "
      ++ toString fo.end_date)
  else
    Except.ok ()

/-- Sum of the prices of all scheduled activities of a plan, exactly as the
two nested `for` loops of `eval_total_cost_is_accurate` accumulate it. -/
def sumActivityPrices (fo : TravelPlan) : Int :=
  fo.itinerary_days.foldl
    (fun acc day =>
      day.activity_recommendations.foldl (fun a r => a + r.activity.price) acc)
    0

/-- Embedding of `evals.eval_total_cost_is_accurate` (lines 82-106): the
accumulated activity-price sum must equal `int(final_output.total_cost)`
(`total_cost` is already an integer, so the cast is the identity);
otherwise it raises `AgentError` with a message carrying both figures. -/
def eval_total_cost_is_accurate (vi : VacationInfo) (fo : TravelPlan)
    (fb : Option String) : Except String Unit :=
  let actual_total_cost := sumActivityPrices fo
  let stated_total_cost := fo.total_cost
  if actual_total_cost ≠ stated_total_cost then
    Except.error ("Stated total cost does not match calculated total cost: "
      ++ toString actual_total_cost ++ " != " ++ toString stated_total_cost)
  else
    Except.ok ()

/-- Substring fact used to state "the message contains the figure". -/
def StrContains (s t : String) : Prop :=
  ∃ a b : String, s = a ++ t ++ b

/-- JSON values as `json.loads` produces them: `None`, booleans, numbers,
strings, lists and dictionaries (association lists with string keys). -/
inductive Json where
  | null : Json
  | bool (b : Bool) : Json
  | num (n : Int) : Json
  | str (s : String) : Json
  | arr (xs : List Json) : Json
  | obj (kvs : List (String × Json)) : Json

/-- Python `type(x)` rendered the way an `AttributeError` names it. -/
def pyShortTypeName : Json → String
  | Json.null => "NoneType"
  | Json.bool _ => "bool"
  | Json.num _ => "int"
  | Json.str _ => "str"
  | Json.arr _ => "list"
  | Json.obj _ => "dict"

/-- Python `type(x)` rendered the way an f-string prints it. -/
def pyTypeName (j : Json) : String :=
  "<class " ++ "\x27" ++ pyShortTypeName j ++ "\x27>"

/-- Dictionary lookup, `d.get(k)` / `k in d` on a parsed JSON object. -/
def lookupKey (kvs : List (String × Json)) (k : String) : Option Json :=
  match kvs.find? (fun p => p.1 == k) with
  | some p => some p.2
  | none => none

/-- Record of `utils.data.ACTIVITY_CALENDAR`. Modelled from the spec: the
calendar module is not among the source files; `tools.py` reads the
`activity_id` and `start_time` (a string beginning with the `YYYY-MM-DD`
date) keys of each record, and the spec says the source serves activities
for AgentsVille between 2025-06-10 and 2025-06-15. -/
structure RawActivity where
  activity_id : String
  name : String
  start_time : String
  price : Int
  deriving Repr, DecidableEq

/-- Record of `utils.data.WEATHER_FORECAST`, modelled from the spec like
`RawActivity`; `tools.py` reads only the `date` key. -/
structure WeatherRecord where
  date : String
  condition : String
  deriving Repr, DecidableEq

/-- Python truthiness of an optional string argument (`if city:`):
present and non-empty. -/
def truthyStr : Option String → Bool
  | some s => !(s == "")
  | none => false

/-- When `pre` is a prefix of `l`, the remainder of `l` past it. -/
def dropPrefixChars : List Char → List Char → Option (List Char)
  | [], l => some l
  | _ :: _, [] => none
  | c :: cs, x :: xs => if c == x then dropPrefixChars cs xs else none

/-- Splitting worker over character lists, fuelled so that the recursion
is structural (the fuel dominates the scanned length). -/
def splitChars (sep : List Char) : Nat → List Char → List Char → List (List Char)
  | 0, l, cur => [cur.reverse ++ l]
  | _ + 1, [], cur => [cur.reverse]
  | fuel + 1, x :: xs, cur =>
    match dropPrefixChars sep (x :: xs) with
    | some rest => cur.reverse :: splitChars sep fuel rest []
    | none => splitChars sep fuel xs (x :: cur)

/-- Embedding of Python `s.split(sep)` for a non-empty separator: the
pieces of `s` between consecutive non-overlapping occurrences of `sep`,
scanned left to right. -/
def pySplit (s sep : String) : List String :=
  (splitChars sep.data (s.data.length + 1) s.data []).map (fun cs => String.mk cs)

/-- Characters Python `str.strip()` removes. -/
def isPyWhitespace (c : Char) : Bool :=
  c == ' ' || c == '\t' || c == '\n' || c == '\r' || c == '\x0b' || c == '\x0c'

/-- Embedding of Python `s.strip()`: leading and trailing whitespace
removed. -/
def pyStrip (s : String) : String :=
  String.mk (((s.data.dropWhile isPyWhitespace).reverse.dropWhile isPyWhitespace).reverse)

/-- Lexicographic comparison of character lists by code point. -/
def pyLtChars : List Char → List Char → Bool
  | [], [] => false
  | [], _ :: _ => true
  | _ :: _, [] => false
  | a :: as, b :: bs =>
    if a.toNat < b.toNat then true
    else if b.toNat < a.toNat then false
    else pyLtChars as bs

/-- Embedding of Python string `<`: lexicographic by code point. -/
def pyStrLt (a b : String) : Bool :=
  pyLtChars a.data b.data

/-- Whether `pre` is a prefix of `l`. -/
def charsPrefix : List Char → List Char → Bool
  | [], _ => true
  | _ :: _, [] => false
  | a :: as, b :: bs => a == b && charsPrefix as bs

/-- Embedding of Python `s.startswith(pre)`. -/
def pyStartsWith (s pre : String) : Bool :=
  charsPrefix pre.data s.data

/-- Numeric value of a string of decimal digits. -/
def charsToNat (l : List Char) : Nat :=
  l.foldl (fun n c => n * 10 + (c.toNat - 48)) 0

/-- Number of days of a month, with the Gregorian leap rule, as
`datetime.datetime.strptime` validates day-of-month. -/
def daysInMonth (y m : Nat) : Nat :=
  if m == 2 then
    if y % 4 == 0 && (y % 100 != 0 || y % 400 == 0) then 29 else 28
  else if m == 4 || m == 6 || m == 9 || m == 11 then 30
  else 31

/-- Embedding of the `datetime.datetime.strptime(date, "%Y-%m-%d")` check:
three dash-separated all-digit fields, a year of one to four digits, a
month and day of one or two digits, and a real calendar date. -/
def isValidDateYMD (s : String) : Bool :=
  match pySplit s "-" with
  | [y, m, d] =>
    let yn := charsToNat y.data
    let mn := charsToNat m.data
    let dn := charsToNat d.data
    !(y == "") && y.data.length ≤ 4 && y.data.all Char.isDigit &&
    !(m == "") && m.data.length ≤ 2 && m.data.all Char.isDigit &&
    !(d == "") && d.data.length ≤ 2 && d.data.all Char.isDigit &&
    1 ≤ yn && 1 ≤ mn && mn ≤ 12 && 1 ≤ dn && dn ≤ daysInMonth yn mn
  | _ => false

/-- Embedding of `tools.call_activities_api_mocked` (lines 7-51), with the
module-level `ACTIVITY_CALENDAR` passed explicitly.  Note the Python
guards: `if city and city != "AgentsVille"`, `if date:` before the format
check, the lexicographic string range check, and the `startswith` and id
filters, each applied only to truthy arguments. -/
def call_activities_api_mocked (calendar : List RawActivity)
    (date : Option String) (city : Option String)
    (activity_ids : Option (List String)) : List RawActivity :=
  if truthyStr city && !((city.getD "") == "AgentsVille") then []
  else if truthyStr date && !(isValidDateYMD (date.getD "")) then []
  else if truthyStr date &&
      (pyStrLt (date.getD "") "2025-06-10" || pyStrLt "2025-06-15" (date.getD "")) then []
  else
    let activities := calendar
    let activities :=
      if truthyStr date then
        activities.filter (fun e => pyStartsWith e.start_time (date.getD ""))
      else activities
    let activities :=
      match activity_ids with
      | some ids => if !(ids.isEmpty) then
          activities.filter (fun e => ids.contains e.activity_id)
        else activities
      | none => activities
    activities

/-- Embedding of `tools.call_activity_by_id_api_mocked` (lines 54-67): the
first calendar record with the given id, or `None`. -/
def call_activity_by_id_api_mocked (calendar : List RawActivity)
    (activity_id : String) : Option RawActivity :=
  calendar.find? (fun e => e.activity_id == activity_id)

/-- Embedding of `tools.call_weather_api_mocked` (lines 70-100), with the
module-level `WEATHER_FORECAST` passed explicitly.  An empty dictionary is
`none`; the final `next(..., {})` is a first-match search. -/
def call_weather_api_mocked (forecast : List WeatherRecord)
    (date : String) (city : String) : Option WeatherRecord :=
  if !(city == "AgentsVille") then none
  else if !(isValidDateYMD date) then none
  else if pyStrLt date "2025-06-10" || pyStrLt "2025-06-15" date then none
  else forecast.find? (fun f => f.date == date)

/-- A registered tool as the dispatcher sees it: its `__name__` and its
body applied to the keyword-argument dictionary.  A body that raises is an
`Except.error` carrying the exception's message; a successful body's
response is carried already rendered, as the dispatcher interpolates it
into an f-string. -/
structure Tool where
  name : String
  fn : List (String × Json) → Except String String

/-- Embedding of `ItineraryRevisionAgent.get_observation_string`
(`model.py` lines 218-255), instrumented: the second component records the
names of the tools actually invoked (at most one).  The observation string
in the first component is exactly the source's; validation violations
short-circuit before any tool is invoked. -/
def get_observation_string_instr (tools : List Tool)
    (tool_call_obj : List (String × Json)) : String × List String :=
  match lookupKey tool_call_obj "tool_name" with
  | none => ("OBSERVATION: No tool name specified.", [])
  | some tn =>
    match lookupKey tool_call_obj "arguments" with
    | none => ("OBSERVATION: No arguments specified.", [])
    | some args =>
      match args with
      | Json.obj argkvs =>
        match tn with
        | Json.str tool_name =>
          match tools.find? (fun t => t.name == tool_name) with
          | none =>
            ("OBSERVATION: Unknown tool name \x27" ++ tool_name ++ "\x27 in action string.",
              [])
          | some tool_fn =>
            match tool_fn.fn argkvs with
            | Except.ok tool_response =>
              ("OBSERVATION: Tool " ++ tool_name ++ " called successfully with response: "
                ++ tool_response, [tool_name])
            | Except.error e =>
              ("OBSERVATION: Error occurred while calling tool " ++ tool_name ++ ": " ++ e,
                [tool_name])
        | _ =>
          ("OBSERVATION: Tool name should be a string, got " ++ pyTypeName tn
            ++ " instead.", [])
      | _ =>
        ("OBSERVATION: Arguments should be a dictionary, got " ++ pyTypeName args
          ++ " instead.", [])

/-- Observation string of the dispatcher, as the revision loop consumes it. -/
def get_observation_string (tools : List Tool)
    (tool_call_obj : List (String × Json)) : String :=
  (get_observation_string_instr tools tool_call_obj).1

/-- Conversation roles accepted by `ChatAgent.add_message` (`model.py`
lines 110-131): exactly `system`, `user` and `assistant`. -/
inductive Role where
  | system : Role
  | user : Role
  | assistant : Role
  deriving Repr, DecidableEq

/-- One entry of the agent's `self.messages` list. -/
structure Msg where
  role : Role
  content : String
  deriving Repr, DecidableEq

/-- Exceptions that can escape `run_react_cycle`: the `RuntimeError` raised
on step-budget exhaustion, and the `AttributeError` raised when `.get` is
called on a parsed action value that is not a dictionary. -/
inductive RunError where
  | runtimeError (msg : String) : RunError
  | attributeError (msg : String) : RunError
  deriving Repr, DecidableEq

/-- External collaborators of `ItineraryRevisionAgent.run_react_cycle`,
exactly the interfaces the spec carves out: the blocking chat completion
over the full conversation (`oracle`, already coalesced to a string by the
source's `or ""`), the best-effort `json_repair.repair_json` pass
(`repair`), structural `json.loads` parsing (`loads`, `none` being
`json.JSONDecodeError`), pydantic validation of a payload against the
`TravelPlan` schema (`validateTravelPlan`, `Except.error` carrying the
validation error's message), the registered tools, and pydantic
serialization (`dump`). -/
structure Env where
  oracle : List Msg → String
  repair : String → String
  loads : String → Option Json
  validateTravelPlan : Json → Except String TravelPlan
  tools : List Tool
  dump : TravelPlan → String

/-- Embedding of the `final_answer_tool` branch of the loop (`model.py`
lines 299-312): the payload is `tool_call_obj["arguments"]` (a `KeyError`
if absent), then `.get("final_output", arguments)` (an `AttributeError` if
the arguments are not a dictionary); both exceptions are raised inside the
`try` block and caught by its `except Exception`. -/
def finalPayload (kvs : List (String × Json)) : Except String Json :=
  match lookupKey kvs "arguments" with
  | none => Except.error ("\x27arguments\x27")
  | some (Json.obj argkvs) =>
    Except.ok ((lookupKey argkvs "final_output").getD (Json.obj argkvs))
  | some other =>
    Except.error ("\x27" ++ pyShortTypeName other ++ "\x27 object has no attribute \x27get\x27")

/-- The whole `try` body of the final-answer branch: payload selection
followed by `TravelPlan.model_validate`. -/
def finalAnswerValidation (env : Env) (kvs : List (String × Json)) :
    Except String TravelPlan :=
  match finalPayload kvs with
  | Except.error e => Except.error e
  | Except.ok payload => env.validateTravelPlan payload

/-- Possible fates of one model response inside the loop. -/
inductive StepResult where
  | observe (obs : String) : StepResult
  | finish (plan : TravelPlan) : StepResult
  | crash (msg : String) : StepResult
  deriving Repr

/-- What one loop step does with a model response, after the response has
been appended to the conversation: append a user observation and continue
(`observe`), return the validated plan (`finish`), or raise out of the
loop (`crash`).  This is the source's control flow for `model.py` lines
277-319: the `ACTION:` marker test (`str.split` keeps the text between the
first two markers), `repair_json` + `json.loads` with `JSONDecodeError`
recovered, `tool_call_obj.get("tool_name", None)` — an `AttributeError`
when the parsed action is not a dictionary — the `final_answer_tool`
branch, and the dispatcher for every other action. -/
def classifyResponse (env : Env) (resp : String) : StepResult :=
  match pySplit resp "ACTION:" with
  | _ :: action_part :: _ =>
    let action_string := env.repair (pyStrip action_part)
    match env.loads action_string with
    | none => StepResult.observe ("Invalid JSON in action string: " ++ action_string)
    | some (Json.obj kvs) =>
      match lookupKey kvs "tool_name" with
      | some (Json.str s) =>
        if s == "final_answer_tool" then
          match finalAnswerValidation env kvs with
          | Except.ok plan => StepResult.finish plan
          | Except.error e =>
            StepResult.observe ("Error validating final answer: " ++ e)
        else StepResult.observe (get_observation_string env.tools kvs)
      | _ => StepResult.observe (get_observation_string env.tools kvs)
    | some other =>
      StepResult.crash ("\x27" ++ pyShortTypeName other ++ "\x27 object has no attribute \x27get\x27")
  | _ => StepResult.observe "No action found in response."

/-- Exhaustion message of `model.py` lines 321-323. -/
def exhaustMsg (max_steps : Nat) (lastResp : String) : String :=
  "ReAct cycle did not complete within " ++ toString max_steps
    ++ " steps. Last response: " ++ lastResp

/-- Embedding of the `for step in range(max_steps)` loop of
`run_react_cycle` (`model.py` lines 271-323), in state-passing style: the
remaining fuel, the conversation so far and the previous raw response are
threaded explicitly; the result pairs the Python return-or-raise outcome
with the final conversation. Each step obtains the model response over the
current conversation, appends it as an assistant turn, and acts on its
classification. -/
def runLoop (env : Env) (max_steps : Nat) :
    Nat → List Msg → String → Except RunError TravelPlan × List Msg
  | 0, msgs, lastResp =>
    (Except.error (RunError.runtimeError (exhaustMsg max_steps lastResp)), msgs)
  | fuel + 1, msgs, _ =>
    let resp := env.oracle msgs
    let msgs1 := msgs ++ [Msg.mk Role.assistant resp]
    match classifyResponse env resp with
    | StepResult.finish plan => (Except.ok plan, msgs1)
    | StepResult.crash m => (Except.error (RunError.attributeError m), msgs1)
    | StepResult.observe obs =>
      runLoop env max_steps fuel (msgs1 ++ [Msg.mk Role.user obs]) resp

/-- Embedding of `ItineraryRevisionAgent.run_react_cycle` (`model.py`
lines 257-323): seed the conversation with the serialized plan to revise
as a user turn, then run the bounded loop; before any step runs the
Python-level `resp` is `None`, which the exhaustion f-string renders as
the four letters of `"None"`. -/
def run_react_cycle (env : Env) (original_travel_plan : TravelPlan)
    (max_steps : Nat) (init : List Msg) :
    Except RunError TravelPlan × List Msg :=
  runLoop env max_steps max_steps
    (init ++ [Msg.mk Role.user
      ("Here is the itinerary for revision:\n" ++ env.dump original_travel_plan)])
    "None"

/-- Shape of everything the loop appends to the conversation: per step,
exactly one assistant turn (the model response) followed by at most one
user turn (the observation). -/
inductive ReactBlocks : List Msg → Prop
  | nil : ReactBlocks []
  | noObs (r : String) (rest : List Msg) :
      ReactBlocks rest → ReactBlocks (Msg.mk Role.assistant r :: rest)
  | withObs (r o : String) (rest : List Msg) :
      ReactBlocks rest →
      ReactBlocks (Msg.mk Role.assistant r :: Msg.mk Role.user o :: rest)

/-- Plan, vacation and traveler constants used by the concrete witnesses. -/
def cTraveler : Traveler := ⟨"Ann", 30, ["art"]⟩

/-- Concrete vacation info for witnesses. -/
def viW : VacationInfo := ⟨[cTraveler], "AgentsVille", 20250610, 20250612, 100⟩

/-- Concrete travel plan for witnesses. -/
def planW : TravelPlan := ⟨"AgentsVille", 20250610, 20250612, 0, []⟩

/-- C6: for every `TravelPlan`, the cost-accuracy evaluator passes exactly
when the sum of the scheduled activity prices equals the stated integer
total cost, and when the two figures differ it fails with a message that
contains both the computed sum and the stated total cost. -/
theorem eval_total_cost_is_accurate_spec (vi : VacationInfo) (fo : TravelPlan)
    (fb : Option String) :
    (eval_total_cost_is_accurate vi fo fb = Except.ok () ↔
      sumActivityPrices fo = fo.total_cost)
    ∧ (sumActivityPrices fo ≠ fo.total_cost →
        ∃ msg, eval_total_cost_is_accurate vi fo fb = Except.error msg
          ∧ StrContains msg (toString (sumActivityPrices fo))
          ∧ StrContains msg (toString fo.total_cost)) := by
  constructor
  · by_cases h : sumActivityPrices fo = fo.total_cost <;>
      simp [eval_total_cost_is_accurate, h]
  · intro h
    refine ⟨"Stated total cost does not match calculated total cost: "
        ++ toString (sumActivityPrices fo) ++ " != " ++ toString fo.total_cost,
      by simp [eval_total_cost_is_accurate, h], ?_, ?_⟩
    · exact ⟨"Stated total cost does not match calculated total cost: ",
        " != " ++ toString fo.total_cost, by simp [String.append_assoc]⟩
    · exact ⟨"Stated total cost does not match calculated total cost: "
        ++ toString (sumActivityPrices fo) ++ " != ", "", by simp⟩

/-- Witness for C6 at a concrete mismatching plan: `planW` schedules no
activities but its perturbed copy states a total cost of 1. -/
theorem eval_total_cost_is_accurate_spec_witness :
    (eval_total_cost_is_accurate viW { planW with total_cost := 1 } none = Except.ok () ↔
      sumActivityPrices { planW with total_cost := 1 } =
        ({ planW with total_cost := 1 } : TravelPlan).total_cost)
    ∧ ∃ msg, eval_total_cost_is_accurate viW { planW with total_cost := 1 } none
          = Except.error msg
        ∧ StrContains msg (toString (sumActivityPrices { planW with total_cost := 1 }))
        ∧ StrContains msg (toString ({ planW with total_cost := 1 } : TravelPlan).total_cost) :=
  ⟨(eval_total_cost_is_accurate_spec viW { planW with total_cost := 1 } none).1,
    (eval_total_cost_is_accurate_spec viW { planW with total_cost := 1 } none).2
      (by decide)⟩

/-- C7: the dates-match evaluator fails whenever the plan start differs
from the vacation arrival or the plan end differs from the vacation
departure, fails whenever the plan start is after the plan end, and
returns silently when the dates match and start does not exceed end. -/
theorem eval_start_end_dates_match_spec (vi : VacationInfo) (fo : TravelPlan)
    (fb : Option String) :
    (vi.date_of_arrival ≠ fo.start_date ∨ vi.date_of_departure ≠ fo.end_date →
      ∃ msg, eval_start_end_dates_match vi fo fb = Except.error msg)
    ∧ (fo.end_date < fo.start_date →
      ∃ msg, eval_start_end_dates_match vi fo fb = Except.error msg)
    ∧ (vi.date_of_arrival = fo.start_date → vi.date_of_departure = fo.end_date →
      fo.start_date ≤ fo.end_date →
      eval_start_end_dates_match vi fo fb = Except.ok ()) := by
  refine ⟨?_, ?_, ?_⟩
  · intro h
    unfold eval_start_end_dates_match
    rw [if_pos h]
    exact ⟨_, rfl⟩
  · intro h
    unfold eval_start_end_dates_match
    by_cases h1 : vi.date_of_arrival ≠ fo.start_date ∨ vi.date_of_departure ≠ fo.end_date
    · rw [if_pos h1]
      exact ⟨_, rfl⟩
    · rw [if_neg h1, if_pos h]
      exact ⟨_, rfl⟩
  · intro h1 h2 h3
    have h4 : ¬(vi.date_of_arrival ≠ fo.start_date ∨ vi.date_of_departure ≠ fo.end_date) := by
      simp [h1, h2]
    simp [eval_start_end_dates_match, h4, h1, h2, Nat.not_lt.mpr h3]

/-- Witness for C7 at concrete inputs: mismatching dates fail, matching
ordered dates pass. -/
theorem eval_start_end_dates_match_spec_witness :
    (∃ msg, eval_start_end_dates_match viW { planW with start_date := 20250611 } none
      = Except.error msg)
    ∧ eval_start_end_dates_match viW planW none = Except.ok () :=
  ⟨(eval_start_end_dates_match_spec viW { planW with start_date := 20250611 } none).1
      (by decide),
    (eval_start_end_dates_match_spec viW planW none).2.2 (by decide) (by decide) (by decide)⟩

/-- C8 counterexample: a `VacationInfo` whose arrival (2025-06-14) is
strictly after its departure (2025-06-10) validates successfully — the
pydantic model declares no constraint between the two dates, so the
claimed invariant "arrival date less than or equal to departure date" is
not enforced at construction. -/
theorem vacationInfo_validate_no_date_order :
    VacationInfo.validate [cTraveler] "AgentsVille" 20250614 20250610 100
      = some ⟨[cTraveler], "AgentsVille", 20250614, 20250610, 100⟩
    ∧ ¬((20250614 : Nat) ≤ 20250610) := by
  constructor
  · rfl
  · decide

/-- C8 (amended): every successfully validated `VacationInfo` satisfies
the constraints the model actually declares — strictly positive budget,
at least one traveler, arrival after 2025-06-09 and departure before
2025-06-16 — and validation fails exactly when one of these is violated;
the relative order of arrival and departure is not constrained. -/
theorem vacationInfo_validate_spec (ts : List Traveler) (dest : String)
    (a dep : PyDate) (b : Int) :
    (∀ vi, VacationInfo.validate ts dest a dep b = some vi →
      0 < vi.budget ∧ vi.travelers ≠ [] ∧ 20250609 < vi.date_of_arrival
        ∧ vi.date_of_departure < 20250616)
    ∧ (VacationInfo.validate ts dest a dep b = none ↔
      ¬(1 ≤ ts.length ∧ 20250609 < a ∧ dep < 20250616 ∧ 0 < b)) := by
  constructor
  · intro vi hvi
    unfold VacationInfo.validate at hvi
    by_cases h : 1 ≤ ts.length ∧ 20250609 < a ∧ dep < 20250616 ∧ 0 < b
    · rw [if_pos h] at hvi
      cases hvi
      refine ⟨h.2.2.2, ?_, h.2.1, h.2.2.1⟩
      exact List.ne_nil_of_length_pos (Nat.lt_of_lt_of_le Nat.zero_lt_one h.1)
    · rw [if_neg h] at hvi
      cases hvi
  · unfold VacationInfo.validate
    by_cases h : 1 ≤ ts.length ∧ 20250609 < a ∧ dep < 20250616 ∧ 0 < b
    · rw [if_pos h]
      simp [h]
    · rw [if_neg h]
      simp [h]

/-- Witness for C8's amended theorem at a concrete accepted input. -/
theorem vacationInfo_validate_spec_witness :
    0 < (VacationInfo.mk [cTraveler] "AgentsVille" 20250610 20250612 7).budget
    ∧ (VacationInfo.mk [cTraveler] "AgentsVille" 20250610 20250612 7).travelers ≠ []
    ∧ 20250609 < (VacationInfo.mk [cTraveler] "AgentsVille" 20250610 20250612 7).date_of_arrival
    ∧ (VacationInfo.mk [cTraveler] "AgentsVille" 20250610 20250612 7).date_of_departure
        < 20250616 :=
  (vacationInfo_validate_spec [cTraveler] "AgentsVille" 20250610 20250612 7).1 _ rfl

/-- Characterizing lemma for the suite runner loop: when no configured
evaluator raises a non-`AgentError` exception, the loop returns the
accumulator extended by each evaluator's failure message in order. -/
theorem runEvalFns_eq (vi : VacationInfo) (fo : TravelPlan) (fb : Option String)
    (fns : List Evaluator)
    (h : ∀ f ∈ fns, ∀ m, f.run vi fo fb ≠ EvalOutcome.fatal m) :
    ∀ acc, runEvalFns vi fo fb fns acc =
      Except.ok (acc ++ fns.filterMap (evalFailureMsg vi fo fb)) := by
  induction fns with
  | nil => intro acc; simp [runEvalFns]
  | cons f rest ih =>
    intro acc
    have hf := h f (List.mem_cons_self f rest)
    have hrest : ∀ g ∈ rest, ∀ m, g.run vi fo fb ≠ EvalOutcome.fatal m :=
      fun g hg => h g (List.mem_cons_of_mem f hg)
    unfold runEvalFns
    cases hr : f.run vi fo fb with
    | ok =>
      simp only []
      rw [ih hrest acc]
      simp [evalFailureMsg, hr]
    | agentError m =>
      simp only []
      rw [ih hrest (acc ++ [m])]
      simp [evalFailureMsg, hr]
    | fatal m => exact absurd hr (hf m)

/-- C5: when every configured evaluator either passes or raises the
`AgentError` validation failure (the only failure mode the spec gives an
evaluator), the suite runner invokes each evaluator in order, catches each
failure independently (a failure does not stop later evaluators: the
failure list is the in-order filter-map over the whole configured list),
and returns an `EvaluationResults` whose `success` is true exactly when
the failure list is empty and whose `eval_functions` names every
configured evaluator in invocation order. -/
theorem get_eval_results_spec (vi : VacationInfo) (fo : TravelPlan)
    (fb : Option String) (eval_fns : List Evaluator)
    (h : ∀ f ∈ eval_fns, ∀ m, f.run vi fo fb ≠ EvalOutcome.fatal m) :
    ∃ res, get_eval_results vi fo eval_fns fb = Except.ok res
      ∧ res.failures = eval_fns.filterMap (evalFailureMsg vi fo fb)
      ∧ (res.success = true ↔ res.failures = [])
      ∧ res.eval_functions = eval_fns.map (fun f => f.name) := by
  refine ⟨⟨(eval_fns.filterMap (evalFailureMsg vi fo fb)).length == 0,
    eval_fns.filterMap (evalFailureMsg vi fo fb), eval_fns.map (fun f => f.name)⟩,
    ?_, rfl, ?_, rfl⟩
  · unfold get_eval_results
    rw [runEvalFns_eq vi fo fb eval_fns h []]
    simp
  · simp [List.length_eq_zero]

/-- Concrete always-passing evaluator for the C5 witness. -/
def evPass : Evaluator := ⟨"eval_pass", fun _ _ _ => EvalOutcome.ok⟩

/-- Concrete always-failing evaluator for the C5 witness. -/
def evFailA : Evaluator := ⟨"eval_fail_a", fun _ _ _ => EvalOutcome.agentError "boom-a"⟩

/-- Concrete always-failing evaluator for the C5 witness. -/
def evFailB : Evaluator := ⟨"eval_fail_b", fun _ _ _ => EvalOutcome.agentError "boom-b"⟩

/-- Witness for C5 at a concrete evaluator list: the first failure does not
stop the second failing evaluator from contributing its message. -/
theorem get_eval_results_spec_witness :
    ∃ res, get_eval_results viW planW [evPass, evFailA, evFailB] none = Except.ok res
      ∧ res.failures = [evPass, evFailA, evFailB].filterMap (evalFailureMsg viW planW none)
      ∧ (res.success = true ↔ res.failures = [])
      ∧ res.eval_functions = [evPass, evFailA, evFailB].map (fun f => f.name) :=
  get_eval_results_spec viW planW none [evPass, evFailA, evFailB] (by
    intro f hf m
    fin_cases hf <;> simp [evPass, evFailA, evFailB])

/-- Sample activity calendar for C9's concrete statements. Modelled from
the spec: `utils.data.ACTIVITY_CALENDAR` is not among the source files;
the spec says the mocked source serves activities for AgentsVille between
2025-06-10 and 2025-06-15, so one such record is used. -/
def sampleCalendar : List RawActivity :=
  [⟨"act-1", "Museum Tour", "2025-06-10 09:00", 20⟩]

/-- Sample weather forecast for C9's concrete statements, modelled from
the spec like `sampleCalendar`. -/
def sampleForecast : List WeatherRecord := [⟨"2025-06-10", "Sunny"⟩]

/-- C9 counterexample: the empty string is a malformed date string (it
does not parse as `%Y-%m-%d`), yet `call_activities_api_mocked` does not
return an empty list for it — the `if date:` truthiness guard treats `""`
as an absent filter and the full (non-empty) activity calendar is
returned. -/
theorem call_activities_api_mocked_empty_string_date :
    isValidDateYMD "" = false
    ∧ call_activities_api_mocked sampleCalendar (some "") (some "AgentsVille") none
        = sampleCalendar
    ∧ sampleCalendar ≠ [] := by
  refine ⟨rfl, rfl, ?_⟩
  simp [sampleCalendar]

/-- C9 (amended): the mocked data sources return empty results rather than
raising, except that `call_activities_api_mocked` treats an empty-string
date or city as an absent filter: for every non-empty unsupported city,
every non-empty malformed date string, and every date string outside the
supported lexicographic range 2025-06-10 to 2025-06-15 it returns an empty
list; `call_weather_api_mocked` returns an empty mapping for every
unsupported city, every malformed date string and every out-of-range
date; and `call_activity_by_id_api_mocked` returns an empty result (`None`)
for every activity id with no matching reference activity. -/
theorem mocked_apis_empty_results (calendar : List RawActivity)
    (forecast : List WeatherRecord) (ids : Option (List String)) :
    (∀ c date, c ≠ "" → c ≠ "AgentsVille" →
      call_activities_api_mocked calendar date (some c) ids = [])
    ∧ (∀ d city, d ≠ "" → isValidDateYMD d = false →
      call_activities_api_mocked calendar (some d) city ids = [])
    ∧ (∀ d city, d ≠ "" →
      (pyStrLt d "2025-06-10" || pyStrLt "2025-06-15" d) = true →
      call_activities_api_mocked calendar (some d) city ids = [])
    ∧ (∀ d city, city ≠ "AgentsVille" → call_weather_api_mocked forecast d city = none)
    ∧ (∀ d city, isValidDateYMD d = false → call_weather_api_mocked forecast d city = none)
    ∧ (∀ d city, (pyStrLt d "2025-06-10" || pyStrLt "2025-06-15" d) = true →
      call_weather_api_mocked forecast d city = none)
    ∧ (∀ aid, (∀ a ∈ calendar, a.activity_id ≠ aid) →
      call_activity_by_id_api_mocked calendar aid = none) := by
  refine ⟨?_, ?_, ?_, ?_, ?_, ?_, ?_⟩
  · intro c date hc hav
    unfold call_activities_api_mocked
    rw [if_pos]
    simp [truthyStr, hc, hav]
  · intro d city hd hbad
    unfold call_activities_api_mocked
    by_cases h1 : (truthyStr city && !((city.getD "") == "AgentsVille")) = true
    · rw [if_pos h1]
    · rw [if_neg h1, if_pos]
      simp [truthyStr, hd, hbad]
  · intro d city hd hrange
    unfold call_activities_api_mocked
    by_cases h1 : (truthyStr city && !((city.getD "") == "AgentsVille")) = true
    · rw [if_pos h1]
    · rw [if_neg h1]
      by_cases h2 : (truthyStr (some d) && !(isValidDateYMD ((some d : Option String).getD ""))) = true
      · rw [if_pos h2]
      · rw [if_neg h2, if_pos]
        simp only [Option.getD_some]
        simp [truthyStr, hd, hrange]
  · intro d city hcity
    unfold call_weather_api_mocked
    rw [if_pos]
    simp [hcity]
  · intro d city hbad
    unfold call_weather_api_mocked
    by_cases hcity : (!(city == "AgentsVille")) = true
    · rw [if_pos hcity]
    · rw [if_neg hcity, if_pos]
      simp [hbad]
  · intro d city hrange
    unfold call_weather_api_mocked
    by_cases hcity : (!(city == "AgentsVille")) = true
    · rw [if_pos hcity]
    · rw [if_neg hcity]
      by_cases hbad : (!(isValidDateYMD d)) = true
      · rw [if_pos hbad]
      · rw [if_neg hbad, if_pos hrange]
  · intro aid h
    unfold call_activity_by_id_api_mocked
    rw [List.find?_eq_none]
    intro a ha
    simp [h a ha]

/-- Witness for C9's amended theorem at concrete inputs: an unsupported
city, a malformed date, a well-formed out-of-range date, the weather
source on the same inputs, and an unknown activity id. -/
theorem mocked_apis_empty_results_witness :
    call_activities_api_mocked sampleCalendar none (some "Paris") none = []
    ∧ call_activities_api_mocked sampleCalendar (some "garbage") (some "AgentsVille") none = []
    ∧ call_activities_api_mocked sampleCalendar (some "2025-06-16") (some "AgentsVille") none = []
    ∧ call_weather_api_mocked sampleForecast "2025-06-10" "Paris" = none
    ∧ call_weather_api_mocked sampleForecast "garbage" "AgentsVille" = none
    ∧ call_weather_api_mocked sampleForecast "2025-06-09" "AgentsVille" = none
    ∧ call_activity_by_id_api_mocked sampleCalendar "act-404" = none := by
  refine ⟨?_, ?_, ?_, ?_, ?_, ?_, ?_⟩
  · exact (mocked_apis_empty_results sampleCalendar sampleForecast none).1 "Paris" none
      (by decide) (by decide)
  · exact (mocked_apis_empty_results sampleCalendar sampleForecast none).2.1 "garbage"
      (some "AgentsVille") (by decide) (by decide)
  · exact (mocked_apis_empty_results sampleCalendar sampleForecast none).2.2.1 "2025-06-16"
      (some "AgentsVille") (by decide) (by decide)
  · exact (mocked_apis_empty_results sampleCalendar sampleForecast none).2.2.2.1 "2025-06-10"
      "Paris" (by decide)
  · exact (mocked_apis_empty_results sampleCalendar sampleForecast none).2.2.2.2.1 "garbage"
      "AgentsVille" (by decide)
  · exact (mocked_apis_empty_results sampleCalendar sampleForecast none).2.2.2.2.2.1 "2025-06-09"
      "AgentsVille" (by decide)
  · exact (mocked_apis_empty_results sampleCalendar sampleForecast none).2.2.2.2.2.2 "act-404"
      (by decide)

/-- Unfolding lemma: a step whose response classifies as an observation
appends the assistant turn and the user observation and recurses. -/
theorem runLoop_observe_step (env : Env) (n fuel : Nat) (msgs : List Msg)
    (last obs : String)
    (h : classifyResponse env (env.oracle msgs) = StepResult.observe obs) :
    runLoop env n (fuel + 1) msgs last =
      runLoop env n fuel
        (msgs ++ [Msg.mk Role.assistant (env.oracle msgs), Msg.mk Role.user obs])
        (env.oracle msgs) := by
  simp [runLoop, h]

/-- Unfolding lemma: a step whose response classifies as a validated final
answer appends the assistant turn and returns the plan. -/
theorem runLoop_finish_step (env : Env) (n fuel : Nat) (msgs : List Msg)
    (last : String) (plan : TravelPlan)
    (h : classifyResponse env (env.oracle msgs) = StepResult.finish plan) :
    runLoop env n (fuel + 1) msgs last =
      (Except.ok plan, msgs ++ [Msg.mk Role.assistant (env.oracle msgs)]) := by
  simp [runLoop, h]

/-- Unfolding lemma: a step whose response classifies as a crash appends
the assistant turn and raises. -/
theorem runLoop_crash_step (env : Env) (n fuel : Nat) (msgs : List Msg)
    (last m : String)
    (h : classifyResponse env (env.oracle msgs) = StepResult.crash m) :
    runLoop env n (fuel + 1) msgs last =
      (Except.error (RunError.attributeError m),
        msgs ++ [Msg.mk Role.assistant (env.oracle msgs)]) := by
  simp [runLoop, h]

/-- Inversion: a response can only classify as a finished plan through the
final-answer branch, with a successfully validated payload. -/
theorem classify_finish_inv (env : Env) (resp : String) (plan : TravelPlan)
    (hc : classifyResponse env resp = StepResult.finish plan) :
    ∃ kvs, lookupKey kvs "tool_name" = some (Json.str "final_answer_tool")
      ∧ finalAnswerValidation env kvs = Except.ok plan := by
  unfold classifyResponse at hc
  rcases hsp : pySplit resp "ACTION:" with _ | ⟨p, _ | ⟨a, rest⟩⟩ <;> rw [hsp] at hc
  · simp at hc
  · simp at hc
  · cases hload : env.loads (env.repair (pyStrip a)) with
    | none => simp [hload] at hc
    | some j =>
      cases j with
      | obj kvs =>
        simp only [hload] at hc
        cases hlk : lookupKey kvs "tool_name" with
        | none => simp [hlk] at hc
        | some tn =>
          cases tn with
          | str s =>
            simp only [hlk] at hc
            by_cases hs : (s == "final_answer_tool") = true
            · cases hval : finalAnswerValidation env kvs with
              | ok p =>
                simp [hs, hval] at hc
                subst hc
                exact ⟨kvs, by rw [← eq_of_beq hs]; exact hlk, hval⟩
              | error e => simp [hs, hval] at hc
            · simp [hs] at hc
          | null => simp [hlk] at hc
          | bool b => simp [hlk] at hc
          | num x => simp [hlk] at hc
          | arr xs => simp [hlk] at hc
          | obj o => simp [hlk] at hc
      | null => simp [hload] at hc
      | bool b => simp [hload] at hc
      | num x => simp [hload] at hc
      | str s => simp [hload] at hc
      | arr xs => simp [hload] at hc

/-- Inversion: the loop returns a plan only through a step whose response
classified as a finished (validated) final answer. -/
theorem runLoop_ok_inv (env : Env) (n : Nat) :
    ∀ fuel msgs last plan, (runLoop env n fuel msgs last).1 = Except.ok plan →
      ∃ kvs, lookupKey kvs "tool_name" = some (Json.str "final_answer_tool")
        ∧ finalAnswerValidation env kvs = Except.ok plan := by
  intro fuel
  induction fuel with
  | zero =>
    intro msgs last plan h
    simp [runLoop] at h
  | succ k ih =>
    intro msgs last plan h
    cases hc : classifyResponse env (env.oracle msgs) with
    | finish p =>
      rw [runLoop_finish_step env n k msgs last p hc] at h
      simp at h
      subst h
      exact classify_finish_inv env (env.oracle msgs) p hc
    | crash m =>
      rw [runLoop_crash_step env n k msgs last m hc] at h
      simp at h
    | observe obs =>
      rw [runLoop_observe_step env n k msgs last obs hc] at h
      exact ih _ _ _ h

/-- The final conversation of any loop run extends the starting one by
per-step blocks. -/
theorem runLoop_blocks (env : Env) (n : Nat) :
    ∀ fuel msgs last, ∃ suffix,
      (runLoop env n fuel msgs last).2 = msgs ++ suffix ∧ ReactBlocks suffix := by
  intro fuel
  induction fuel with
  | zero =>
    intro msgs last
    exact ⟨[], by simp [runLoop], ReactBlocks.nil⟩
  | succ k ih =>
    intro msgs last
    cases hc : classifyResponse env (env.oracle msgs) with
    | finish p =>
      rw [runLoop_finish_step env n k msgs last p hc]
      exact ⟨[Msg.mk Role.assistant (env.oracle msgs)], rfl,
        ReactBlocks.noObs _ _ ReactBlocks.nil⟩
    | crash m =>
      rw [runLoop_crash_step env n k msgs last m hc]
      exact ⟨[Msg.mk Role.assistant (env.oracle msgs)], rfl,
        ReactBlocks.noObs _ _ ReactBlocks.nil⟩
    | observe obs =>
      rw [runLoop_observe_step env n k msgs last obs hc]
      obtain ⟨s, hs, hb⟩ := ih
        (msgs ++ [Msg.mk Role.assistant (env.oracle msgs), Msg.mk Role.user obs])
        (env.oracle msgs)
      refine ⟨Msg.mk Role.assistant (env.oracle msgs) :: Msg.mk Role.user obs :: s,
        ?_, ReactBlocks.withObs _ _ _ hb⟩
      rw [hs]
      simp

/-- Every message of a block suffix is an assistant or a user turn. -/
theorem reactBlocks_roles {s : List Msg} (h : ReactBlocks s) :
    ∀ m ∈ s, m.role = Role.assistant ∨ m.role = Role.user := by
  induction h with
  | nil => intro m hm; cases hm
  | noObs r rest _ ih =>
    intro m hm
    rcases List.mem_cons.mp hm with rfl | hm2
    · exact Or.inl rfl
    · exact ih m hm2
  | withObs r o rest _ ih =>
    intro m hm
    rcases List.mem_cons.mp hm with rfl | hm2
    · exact Or.inl rfl
    · rcases List.mem_cons.mp hm2 with rfl | hm3
      · exact Or.inr rfl
      · exact ih m hm3

/-- When every model response merely produces an observation, the loop
spends its whole budget and exhausts, reporting the response of the last
executed step. -/
theorem runLoop_exhausts (env : Env) (n : Nat)
    (h : ∀ ms, ∃ obs, classifyResponse env (env.oracle ms) = StepResult.observe obs) :
    ∀ fuel, 1 ≤ fuel → ∀ msgs last, ∃ r msgs2,
      runLoop env n fuel msgs last =
        (Except.error (RunError.runtimeError (exhaustMsg n r)), msgs2)
      ∧ ∃ ms, r = env.oracle ms := by
  intro fuel
  induction fuel with
  | zero => intro h0; omega
  | succ k ih =>
    intro _ msgs last
    obtain ⟨obs, hobs⟩ := h msgs
    rw [runLoop_observe_step env n k msgs last obs hobs]
    rcases Nat.eq_zero_or_pos k with hk | hk
    · subst hk
      exact ⟨env.oracle msgs,
        msgs ++ [Msg.mk Role.assistant (env.oracle msgs), Msg.mk Role.user obs],
        by simp [runLoop], ⟨msgs, rfl⟩⟩
    · exact ih hk _ (env.oracle msgs)

/-- C1 (amended): a model response with no `ACTION:` marker, one whose
repaired action text is unparseable JSON, or one whose action text parses
to a JSON object (regardless of missing or mistyped tool-call fields or an
unknown tool name, and including a final-answer call whose validation
fails) is recovered inside the loop: the step appends exactly one
corrective user observation after the assistant turn, consumes exactly one
step of budget and raises nothing.  (The case the original claim also
covered — an action text parsing to a non-object JSON value — instead
raises an uncaught error; see the counterexample.) -/
theorem run_react_cycle_recoverable_responses (env : Env) (n fuel : Nat)
    (msgs : List Msg) (last : String) :
    (∀ x, pySplit (env.oracle msgs) "ACTION:" = [x] →
      runLoop env n (fuel + 1) msgs last =
        runLoop env n fuel (msgs ++ [Msg.mk Role.assistant (env.oracle msgs),
          Msg.mk Role.user "No action found in response."]) (env.oracle msgs))
    ∧ (∀ p a rest, pySplit (env.oracle msgs) "ACTION:" = p :: a :: rest →
      env.loads (env.repair (pyStrip a)) = none →
      runLoop env n (fuel + 1) msgs last =
        runLoop env n fuel (msgs ++ [Msg.mk Role.assistant (env.oracle msgs),
          Msg.mk Role.user ("Invalid JSON in action string: " ++ env.repair (pyStrip a))])
          (env.oracle msgs))
    ∧ (∀ p a rest kvs, pySplit (env.oracle msgs) "ACTION:" = p :: a :: rest →
      env.loads (env.repair (pyStrip a)) = some (Json.obj kvs) →
      (lookupKey kvs "tool_name" = some (Json.str "final_answer_tool") →
        ∃ e, finalAnswerValidation env kvs = Except.error e) →
      ∃ obs, runLoop env n (fuel + 1) msgs last =
        runLoop env n fuel (msgs ++ [Msg.mk Role.assistant (env.oracle msgs),
          Msg.mk Role.user obs]) (env.oracle msgs)) := by
  refine ⟨?_, ?_, ?_⟩
  · intro x hsp
    refine runLoop_observe_step env n fuel msgs last _ ?_
    unfold classifyResponse
    rw [hsp]
  · intro p a rest hsp hld
    refine runLoop_observe_step env n fuel msgs last _ ?_
    unfold classifyResponse
    rw [hsp]
    simp only [hld]
  · intro p a rest kvs hsp hld hfin
    cases hlk : lookupKey kvs "tool_name" with
    | none =>
      have hc : classifyResponse env (env.oracle msgs) =
          StepResult.observe (get_observation_string env.tools kvs) := by
        unfold classifyResponse
        rw [hsp]
        simp only [hld, hlk]
      exact ⟨_, runLoop_observe_step env n fuel msgs last _ hc⟩
    | some tn =>
      cases tn with
      | str s =>
        by_cases hs : (s == "final_answer_tool") = true
        · obtain ⟨e, he⟩ := hfin (by rw [← eq_of_beq hs]; exact hlk)
          have hc : classifyResponse env (env.oracle msgs) =
              StepResult.observe ("Error validating final answer: " ++ e) := by
            unfold classifyResponse
            rw [hsp]
            simp only [hld, hlk, hs, if_true, he]
          exact ⟨_, runLoop_observe_step env n fuel msgs last _ hc⟩
        · have hc : classifyResponse env (env.oracle msgs) =
              StepResult.observe (get_observation_string env.tools kvs) := by
            unfold classifyResponse
            rw [hsp]
            simp only [hld, hlk]
            rw [if_neg]
            simp [hs]
          exact ⟨_, runLoop_observe_step env n fuel msgs last _ hc⟩
      | null =>
        have hc : classifyResponse env (env.oracle msgs) =
            StepResult.observe (get_observation_string env.tools kvs) := by
          unfold classifyResponse
          rw [hsp]
          simp only [hld, hlk]
        exact ⟨_, runLoop_observe_step env n fuel msgs last _ hc⟩
      | bool b =>
        have hc : classifyResponse env (env.oracle msgs) =
            StepResult.observe (get_observation_string env.tools kvs) := by
          unfold classifyResponse
          rw [hsp]
          simp only [hld, hlk]
        exact ⟨_, runLoop_observe_step env n fuel msgs last _ hc⟩
      | num x =>
        have hc : classifyResponse env (env.oracle msgs) =
            StepResult.observe (get_observation_string env.tools kvs) := by
          unfold classifyResponse
          rw [hsp]
          simp only [hld, hlk]
        exact ⟨_, runLoop_observe_step env n fuel msgs last _ hc⟩
      | arr xs =>
        have hc : classifyResponse env (env.oracle msgs) =
            StepResult.observe (get_observation_string env.tools kvs) := by
          unfold classifyResponse
          rw [hsp]
          simp only [hld, hlk]
        exact ⟨_, runLoop_observe_step env n fuel msgs last _ hc⟩
      | obj o =>
        have hc : classifyResponse env (env.oracle msgs) =
            StepResult.observe (get_observation_string env.tools kvs) := by
          unfold classifyResponse
          rw [hsp]
          simp only [hld, hlk]
        exact ⟨_, runLoop_observe_step env n fuel msgs last _ hc⟩

/-- Concrete `json.loads` behaviour on the counterexample's action text:
the string two-element JSON array parses to a list, exactly as the real
`json.loads` would (and `repair_json` leaves valid JSON untouched). -/
def cxLoads : String → Option Json := fun s =>
  if s == "[1, 2]" then some (Json.arr [Json.num 1, Json.num 2]) else none

/-- Environment for the C1 counterexample: the model always answers with
an action whose text is the valid JSON array `[1, 2]`. -/
def cxEnv : Env :=
  ⟨fun _ => "THOUGHT: revise\nACTION: [1, 2]", fun s => s, cxLoads,
    fun _ => Except.error "invalid", [], fun _ => "original plan json"⟩

/-- C1 counterexample: the parsed tool call `[1, 2]` has missing (indeed,
no possible) `tool_name` and `arguments` fields, yet the loop does not
recover with an observation — `tool_call_obj.get("tool_name", None)` is
evaluated on a list and the resulting `AttributeError` escapes
`run_react_cycle`. -/
theorem run_react_cycle_crashes_on_non_dict_action :
    (run_react_cycle cxEnv planW 3 []).1 =
      Except.error (RunError.attributeError
        ("\x27list\x27 object has no attribute \x27get\x27")) := by
  rfl

/-- Environment for the C1 witness: the model answers with an action whose
text is not parseable JSON even after repair. -/
def c1wEnv : Env :=
  ⟨fun _ => "THOUGHT: hmm\nACTION: not json", fun s => s, fun _ => none,
    fun _ => Except.error "nope", [], fun _ => "plan json"⟩

/-- Witness for C1's amended theorem at a concrete unparseable action. -/
theorem run_react_cycle_recoverable_responses_witness :
    runLoop c1wEnv 1 (0 + 1) [] "None" =
      runLoop c1wEnv 1 0
        ([] ++
          [Msg.mk Role.assistant (c1wEnv.oracle []),
            Msg.mk Role.user ("Invalid JSON in action string: "
              ++ c1wEnv.repair (pyStrip " not json"))])
        (c1wEnv.oracle []) := by
  exact (run_react_cycle_recoverable_responses c1wEnv 1 0 [] "None").2.1
    "THOUGHT: hmm\n" " not json" [] rfl rfl

/-- C4: for every positive step budget, when every model response merely
yields an observation (in particular, never a successfully validated
final answer), `run_react_cycle` raises the fatal `RuntimeError` whose
message embeds the configured budget and the last raw model response —
and that response is indeed one the model produced over some conversation
prefix. -/
theorem run_react_cycle_exhaustion (env : Env) (plan : TravelPlan)
    (init : List Msg) (n : Nat) (hn : 1 ≤ n)
    (h : ∀ ms, ∃ obs, classifyResponse env (env.oracle ms) = StepResult.observe obs) :
    ∃ r msgs2, run_react_cycle env plan n init =
      (Except.error (RunError.runtimeError (exhaustMsg n r)), msgs2)
      ∧ ∃ ms, r = env.oracle ms := by
  unfold run_react_cycle
  exact runLoop_exhausts env n h n hn _ "None"

/-- Environment for the C4 witness: a model that never produces an action
marker at all, so no final answer can ever validate. -/
def exhEnv : Env :=
  ⟨fun _ => "I am not sure what to do.", fun s => s, fun _ => none,
    fun _ => Except.error "nope", [], fun _ => "plan json"⟩

/-- Witness for C4 with `max_steps = 1` and the never-answering model. -/
theorem run_react_cycle_exhaustion_witness :
    ∃ r msgs2, run_react_cycle exhEnv planW 1 [] =
      (Except.error (RunError.runtimeError (exhaustMsg 1 r)), msgs2)
      ∧ ∃ ms, r = exhEnv.oracle ms :=
  run_react_cycle_exhaustion exhEnv planW [] 1 (by decide)
    (fun ms => ⟨"No action found in response.", rfl⟩)

/-- C3: the `final_answer_tool` branch.  First conjunct: a final-answer
action whose payload validates makes the loop return exactly that
validated plan (with only the assistant turn appended).  Second conjunct:
a final-answer action whose validation fails appends a user observation
naming the validation error and continues with one step consumed.  Third
conjunct: the validated payload is the value under the conventional
`final_output` key of the arguments mapping, falling back to the whole
mapping.  Fourth conjunct: a validated final answer is the only way the
loop produces a plan. -/
theorem run_react_cycle_final_answer (env : Env) :
    (∀ n fuel msgs last p a rest kvs plan,
      pySplit (env.oracle msgs) "ACTION:" = p :: a :: rest →
      env.loads (env.repair (pyStrip a)) = some (Json.obj kvs) →
      lookupKey kvs "tool_name" = some (Json.str "final_answer_tool") →
      finalAnswerValidation env kvs = Except.ok plan →
      runLoop env n (fuel + 1) msgs last =
        (Except.ok plan, msgs ++ [Msg.mk Role.assistant (env.oracle msgs)]))
    ∧ (∀ n fuel msgs last p a rest kvs e,
      pySplit (env.oracle msgs) "ACTION:" = p :: a :: rest →
      env.loads (env.repair (pyStrip a)) = some (Json.obj kvs) →
      lookupKey kvs "tool_name" = some (Json.str "final_answer_tool") →
      finalAnswerValidation env kvs = Except.error e →
      runLoop env n (fuel + 1) msgs last =
        runLoop env n fuel (msgs ++ [Msg.mk Role.assistant (env.oracle msgs),
          Msg.mk Role.user ("Error validating final answer: " ++ e)]) (env.oracle msgs))
    ∧ (∀ kvs akvs, lookupKey kvs "arguments" = some (Json.obj akvs) →
      finalAnswerValidation env kvs =
        env.validateTravelPlan ((lookupKey akvs "final_output").getD (Json.obj akvs)))
    ∧ (∀ n fuel msgs last plan, (runLoop env n fuel msgs last).1 = Except.ok plan →
      ∃ kvs payload,
        lookupKey kvs "tool_name" = some (Json.str "final_answer_tool")
        ∧ finalPayload kvs = Except.ok payload
        ∧ env.validateTravelPlan payload = Except.ok plan) := by
  refine ⟨?_, ?_, ?_, ?_⟩
  · intro n fuel msgs last p a rest kvs plan hsp hld hlk hval
    refine runLoop_finish_step env n fuel msgs last plan ?_
    unfold classifyResponse
    rw [hsp]
    simp only [hld, hlk, beq_self_eq_true, if_true, hval]
  · intro n fuel msgs last p a rest kvs e hsp hld hlk hval
    refine runLoop_observe_step env n fuel msgs last _ ?_
    unfold classifyResponse
    rw [hsp]
    simp only [hld, hlk, beq_self_eq_true, if_true, hval]
  · intro kvs akvs hargs
    unfold finalAnswerValidation finalPayload
    rw [hargs]
  · intro n fuel msgs last plan h
    obtain ⟨kvs, hlk, hval⟩ := runLoop_ok_inv env n fuel msgs last plan h
    cases hp : finalPayload kvs with
    | error e =>
      unfold finalAnswerValidation at hval
      rw [hp] at hval
      cases hval
    | ok payload =>
      unfold finalAnswerValidation at hval
      rw [hp] at hval
      exact ⟨kvs, payload, hlk, hp, hval⟩

/-- Parsed tool-call object of the C3 witness's final-answer action. -/
def finKvs : List (String × Json) :=
  [("tool_name", Json.str "final_answer_tool"),
    ("arguments", Json.obj [("final_output", Json.obj [])])]

/-- Environment for the C3 witness: the model emits a final-answer action
and the pydantic validator accepts its payload as `planW`. -/
def finEnv : Env :=
  ⟨fun _ => "THOUGHT: done\nACTION: final", fun s => s,
    fun s => if s == "final" then some (Json.obj finKvs) else none,
    fun _ => Except.ok planW, [], fun _ => "plan json"⟩

/-- Witness for C3 at a concrete successful final answer. -/
theorem run_react_cycle_final_answer_witness :
    runLoop finEnv 1 (0 + 1) [] "None" =
      (Except.ok planW, [] ++ [Msg.mk Role.assistant (finEnv.oracle [])]) := by
  exact (run_react_cycle_final_answer finEnv).1 1 0 [] "None"
    "THOUGHT: done\n" " final" [] finKvs planW rfl rfl rfl rfl

/-- C10: one `run_react_cycle` run only ever appends to the conversation:
the final message list is the initial one, then the seeding user turn
carrying the serialized plan, then per executed step exactly one assistant
turn (the model response) followed by at most one user turn (the
observation); nothing is removed or rewritten, and every appended message
carries one of the roles `system`, `user`, `assistant` (in fact only
`user` and `assistant`). -/
theorem run_react_cycle_append_only (env : Env) (plan : TravelPlan)
    (n : Nat) (init : List Msg) :
    ∃ suffix, (run_react_cycle env plan n init).2 =
        init ++ Msg.mk Role.user
          ("Here is the itinerary for revision:\n" ++ env.dump plan) :: suffix
      ∧ ReactBlocks suffix
      ∧ ∀ m ∈ Msg.mk Role.user
            ("Here is the itinerary for revision:\n" ++ env.dump plan) :: suffix,
          m.role = Role.system ∨ m.role = Role.user ∨ m.role = Role.assistant := by
  obtain ⟨s, hs, hb⟩ := runLoop_blocks env n n
    (init ++ [Msg.mk Role.user ("Here is the itinerary for revision:\n" ++ env.dump plan)])
    "None"
  refine ⟨s, ?_, hb, ?_⟩
  · unfold run_react_cycle
    rw [hs]
    simp
  · intro m hm
    rcases List.mem_cons.mp hm with rfl | hm2
    · exact Or.inr (Or.inl rfl)
    · rcases reactBlocks_roles hb m hm2 with h | h
      · exact Or.inr (Or.inr h)
      · exact Or.inr (Or.inl h)

/-- C2: the dispatcher always returns an observation string (it is a total
function into `String`; a tool body's exception is materialized as the
`Except.error` branch and caught).  The violations are checked in the
source's fixed order — missing `tool_name`, then missing `arguments`, then
non-dictionary `arguments`, then non-string `tool_name`, then unknown tool
name — each short-circuiting with its own distinct observation while
invoking no tool (the instrumentation trace stays empty); an exception
from the invoked tool body is rendered as an error observation naming the
tool, and a successful invocation's observation names the tool and carries
its rendered response. -/
theorem get_observation_string_spec (tools : List Tool)
    (obj : List (String × Json)) :
    (lookupKey obj "tool_name" = none →
      get_observation_string_instr tools obj =
        ("OBSERVATION: No tool name specified.", []))
    ∧ (∀ tn, lookupKey obj "tool_name" = some tn →
      lookupKey obj "arguments" = none →
      get_observation_string_instr tools obj =
        ("OBSERVATION: No arguments specified.", []))
    ∧ (∀ tn args, lookupKey obj "tool_name" = some tn →
      lookupKey obj "arguments" = some args → (∀ kvs, args ≠ Json.obj kvs) →
      get_observation_string_instr tools obj =
        ("OBSERVATION: Arguments should be a dictionary, got "
          ++ pyTypeName args ++ " instead.", []))
    ∧ (∀ tn akvs, lookupKey obj "tool_name" = some tn →
      lookupKey obj "arguments" = some (Json.obj akvs) → (∀ s, tn ≠ Json.str s) →
      get_observation_string_instr tools obj =
        ("OBSERVATION: Tool name should be a string, got "
          ++ pyTypeName tn ++ " instead.", []))
    ∧ (∀ s akvs, lookupKey obj "tool_name" = some (Json.str s) →
      lookupKey obj "arguments" = some (Json.obj akvs) →
      tools.find? (fun t => t.name == s) = none →
      get_observation_string_instr tools obj =
        ("OBSERVATION: Unknown tool name \x27" ++ s ++ "\x27 in action string.", []))
    ∧ (∀ s akvs t e, lookupKey obj "tool_name" = some (Json.str s) →
      lookupKey obj "arguments" = some (Json.obj akvs) →
      tools.find? (fun t => t.name == s) = some t →
      t.fn akvs = Except.error e →
      get_observation_string_instr tools obj =
        ("OBSERVATION: Error occurred while calling tool " ++ s ++ ": " ++ e, [s]))
    ∧ (∀ s akvs t r, lookupKey obj "tool_name" = some (Json.str s) →
      lookupKey obj "arguments" = some (Json.obj akvs) →
      tools.find? (fun t => t.name == s) = some t →
      t.fn akvs = Except.ok r →
      get_observation_string_instr tools obj =
        ("OBSERVATION: Tool " ++ s ++ " called successfully with response: " ++ r, [s])) := by
  refine ⟨?_, ?_, ?_, ?_, ?_, ?_, ?_⟩
  · intro h1
    unfold get_observation_string_instr
    rw [h1]
  · intro tn h1 h2
    unfold get_observation_string_instr
    rw [h1, h2]
  · intro tn args h1 h2 h3
    unfold get_observation_string_instr
    rw [h1, h2]
    cases args with
    | obj kvs => exact absurd rfl (h3 kvs)
    | null => rfl
    | bool b => rfl
    | num x => rfl
    | str s => rfl
    | arr xs => rfl
  · intro tn akvs h1 h2 h3
    unfold get_observation_string_instr
    rw [h1, h2]
    cases tn with
    | str s => exact absurd rfl (h3 s)
    | null => rfl
    | bool b => rfl
    | num x => rfl
    | arr xs => rfl
    | obj o => rfl
  · intro s akvs h1 h2 h3
    unfold get_observation_string_instr
    rw [h1, h2]
    simp only [h3]
  · intro s akvs t e h1 h2 h3 h4
    unfold get_observation_string_instr
    rw [h1, h2]
    simp only [h3, h4]
  · intro s akvs t r h1 h2 h3 h4
    unfold get_observation_string_instr
    rw [h1, h2]
    simp only [h3, h4]

/-- Concrete calculator-like tool for the C2 witness. -/
def calcToolW : Tool := ⟨"calculator_tool", fun _ => Except.ok "2.0"⟩

/-- Concrete raising tool for the C2 witness. -/
def failToolW : Tool := ⟨"failing_tool", fun _ => Except.error "boom"⟩

/-- Witness for C2 at concrete dispatches: a missing tool name, an unknown
tool name, a raising tool body (caught), and a successful invocation. -/
theorem get_observation_string_spec_witness :
    get_observation_string_instr [calcToolW, failToolW] [] =
      ("OBSERVATION: No tool name specified.", [])
    ∧ get_observation_string_instr [calcToolW, failToolW]
        [("tool_name", Json.str "nonexistent_tool"), ("arguments", Json.obj [])] =
      ("OBSERVATION: Unknown tool name \x27nonexistent_tool\x27 in action string.", [])
    ∧ get_observation_string_instr [calcToolW, failToolW]
        [("tool_name", Json.str "failing_tool"), ("arguments", Json.obj [])] =
      ("OBSERVATION: Error occurred while calling tool failing_tool: boom", ["failing_tool"])
    ∧ get_observation_string_instr [calcToolW, failToolW]
        [("tool_name", Json.str "calculator_tool"),
          ("arguments", Json.obj [("input_expression", Json.str "1+1")])] =
      ("OBSERVATION: Tool calculator_tool called successfully with response: 2.0",
        ["calculator_tool"]) := by
  refine ⟨?_, ?_, ?_, ?_⟩
  · exact (get_observation_string_spec [calcToolW, failToolW] []).1 rfl
  · exact (get_observation_string_spec [calcToolW, failToolW]
      [("tool_name", Json.str "nonexistent_tool"), ("arguments", Json.obj [])]).2.2.2.2.1
      "nonexistent_tool" [] rfl rfl rfl
  · exact (get_observation_string_spec [calcToolW, failToolW]
      [("tool_name", Json.str "failing_tool"), ("arguments", Json.obj [])]).2.2.2.2.2.1
      "failing_tool" [] failToolW "boom" rfl rfl rfl rfl
  · exact (get_observation_string_spec [calcToolW, failToolW]
      [("tool_name", Json.str "calculator_tool"),
        ("arguments", Json.obj [("input_expression", Json.str "1+1")])]).2.2.2.2.2.2
      "calculator_tool" [("input_expression", Json.str "1+1")] calcToolW "2.0" rfl rfl rfl rfl
